import Mathlib

/-!
Verification of the WebSurferAI assistant (`src/main.py`) against its
natural-language specification.

The Python program is shallowly embedded: the browser driver (Playwright) and
the planner (Gemini) are external collaborators, modelled as oracles.  Every
driver primitive that can raise an exception is modelled as `Except String α`
(the `String` being the exception message `str(e)`); Python dictionaries whose
keys are fixed in the source are modelled as structures with `Option` fields
(`dict.get(k)` returning `None` becomes the field holding `none`).  Python text
content that is sliced by character counts is modelled as `List Char`; strings
only compared or concatenated are modelled as `String`.  Debug-mode-only
screenshot/highlight branches, logging, real-time sleeps and the screenshot
file bookkeeping are not modelled: no claim depends on them and they do not
affect any value returned by the embedded functions.
-/

namespace WebSurfer

/-- Result status of every execution primitive (`"SUCCESS"`/`"ERROR"` in the
Python dicts). -/
inductive Status where
  | SUCCESS
  | ERROR
deriving DecidableEq, Repr

/-- One extracted link entry (`{"url": href, "text": text}`, main.py:847). -/
structure LinkEntry where
  url : String
  text : List Char
deriving DecidableEq, Repr

/-- One extracted search result (`main.py:887-891`). -/
structure SearchResult where
  title : List Char
  url : Option String
  description : List Char
deriving DecidableEq, Repr

/-- The `data` payload of extraction results.  Each Python result dict carries
a subset of these keys; absent keys are `none`. -/
structure EData where
  title : Option String := none
  url : Option String := none
  text : Option (List Char) := none
  links : Option (List LinkEntry) := none
  results : Option (List SearchResult) := none
  query : Option String := none
deriving DecidableEq, Repr

/-- The uniform result dict returned by every action primitive
(`{"status": ..., "message": ..., [data/title/current_url]}`). -/
structure ActionResult where
  status : Status
  message : String
  data : Option EData := none
  title : Option String := none
  current_url : Option String := none
deriving DecidableEq, Repr

/-- `{"status": "ERROR", "message": e}` -/
def mkError (e : String) : ActionResult := { status := .ERROR, message := e }

/-- `{"status": "SUCCESS", "message": m}` -/
def mkSuccess (m : String) : ActionResult := { status := .SUCCESS, message := m }

/-- The `details` mapping of an action proposal.  The Python source reads the
fixed keys below with `details.get`; a key that is absent is `none`. -/
structure Details where
  locator : Option String := none
  text : Option String := none
  url : Option String := none
  direction : Option String := none
  amount : Option Int := none
  seconds : Option Nat := none
  type : Option String := none
deriving DecidableEq, Repr

/-- An action proposal as decoded from the planner response
(`{"action": ..., "details": ..., "reasoning": ..., "message": ...}`). -/
structure Proposal where
  action : String
  details : Details := {}
  reasoning : String := ""
  message : String := ""
deriving DecidableEq, Repr

/-- A concrete element reference: the locator expression that was queried and
the match index that was selected (`locator.nth(i)`; `.first` is `nth 0`). -/
abbrev Sel := String × Nat

/-- The browser-driver oracle.  Each field is one Playwright primitive used by
the source; `Except.error e` models the primitive raising an exception with
message `str(e) = e`.  `url` is `page.url` (a property read, never raising in
the source paths we model).  The `sr*` fields are the chained locator probes of
the `search_results` extraction (`main.py:878-885`): `srTitle` is
`result.locator("h3").text_content()`, `srLink` the ancestor link href,
`srDescCount`/`srDesc` the description probe. -/
structure Driver where
  count : String → Except String Nat
  click : Sel → Except String Unit
  waitLoadState : Except String Unit
  fill : Sel → String → Except String Unit
  keyboardType : String → Except String Unit
  goto : String → Except String Unit
  evaluate : String → Except String Unit
  waitTimeout : Nat → Except String Unit
  textContent : Sel → Except String (List Char)
  getAttribute : Sel → String → Except String (Option String)
  title : Except String String
  url : String
  srTitle : String → Nat → Except String (List Char)
  srLink : String → Nat → Except String (Option String)
  srDescCount : String → Nat → Except String Nat
  srDesc : String → Nat → Except String (List Char)

/-- Python `str.upper()` (ASCII range, as used on the fixed action-kind
strings): uppercase each character. -/
def pyUpper (s : String) : String := ⟨s.data.map Char.toUpper⟩

/-- Python `str.lower()` (ASCII range, as used on the scroll directions). -/
def pyLower (s : String) : String := ⟨s.data.map Char.toLower⟩

/-- Python `str.startswith(p)`: `p` is a prefix of `s`. -/
def pyStartsWith (s p : String) : Bool := p.data.isPrefixOf s.data

/-! ## 4.1 Locator Resolver — `find_element_by_locator` (main.py:550-602) -/

/-- Index selection rule (main.py:561-564 and 588-591): when `count > 0`
matches exist, take `locator.nth(index)` if `0 <= index < count`, else
`locator.first` (= match 0). -/
def chosen (index : Int) (n : Nat) : Nat :=
  if 0 ≤ index ∧ index < (n : Int) then index.toNat else 0

/-- The ordered text-matching strategy list (main.py:573-583). -/
def text_locator_strategies (text : String) (index : Int) : List String :=
  [ "text=" ++ text,
    "text=" ++ text ++ ">>nth=" ++ toString index,
    "text=regexp:^" ++ text ++ "$",
    "text=*" ++ text,
    "text=regexp:" ++ text,
    "text=iregex:" ++ text,
    "text=" ++ "\x27" ++ text ++ "\x27",
    "text=" ++ "\"" ++ text ++ "\"",
    "text=localized:" ++ "\"" ++ text ++ "\"" ]

/-- The `for strategy in text_locator_strategies` loop (main.py:584-596).
A raising probe (`Except.error`) aborts the whole polling iteration
(main.py:598-600); the retry loop then re-runs the identical probes until the
10-second budget lapses, so against a fixed oracle the search yields `none`. -/
def try_strategies (d : Driver) (index : Int) : List String → Option Sel
  | [] => none
  | s :: rest =>
    match d.count s with
    | .error _ => none
    | .ok n =>
      if 0 < n then some (s, chosen index n) else try_strategies d index rest

/-- `find_element_by_locator(locator_str, text, index)` (main.py:550-602),
one pass of the polling loop.  With a fixed driver oracle every iteration of
the 10-second `while` loop computes the same value, so a single pass decides
the result (`none` = timeout-and-`None`). -/
def find_element_by_locator (d : Driver) (locator_str : String) (text : String)
    (index : Int) : Option Sel :=
  if locator_str ≠ "" then
    match d.count locator_str with
    | .error _ => none
    | .ok n =>
      if 0 < n then some (locator_str, chosen index n)
      else if text ≠ "" then try_strategies d index (text_locator_strategies text index)
      else none
  else if text ≠ "" then try_strategies d index (text_locator_strategies text index)
  else none

/-! ## 4.2 Action Executor (main.py:449-496 and the handlers it dispatches to)

Each handler wraps its body in `try/except Exception as e: return ERROR str(e)`.
In the embedding a raising driver primitive is an `Except.error e`, and the
`match ... | .error e => mkError e` arms are exactly that conversion. -/

/-- Observable side effects of navigation, used to state the Dialog Dismisser
invocation property (C9). -/
inductive Event where
  | goto (url : String)
  | dialogScan
deriving DecidableEq, Repr

/-- Scheme prefixing (main.py:729-730). -/
def withScheme (url : String) : String :=
  if pyStartsWith url "http://" || pyStartsWith url "https://" then url
  else "https://" ++ url

/-- `navigate_to_url(url)` (main.py:723-747).  Returns the result dict plus
the ordered list of navigation side effects.  `handle_dialogs` (main.py:926-958)
catches every per-selector fault internally and so never raises; we record its
invocation as the single event `dialogScan`.  `page.title()` on the success
path sits inside the `try`, so its fault also becomes an `ERROR` result. -/
def navigate_to_url (d : Driver) (url : String) : ActionResult × List Event :=
  if url = "" then (mkError "No URL provided", [])
  else
    let u := withScheme url
    match d.goto u with
    | .error e => (mkError e, [.goto u])
    | .ok _ =>
      match d.title with
      | .error e => (mkError e, [.goto u, .dialogScan])
      | .ok t =>
        ({ status := .SUCCESS, message := "Navigated to " ++ u,
           title := some t, current_url := some d.url }, [.goto u, .dialogScan])

/-- `click_element(locator_str, text)` (main.py:604-668); callers always use
`index = 0`.  After the click the source waits for the "load" state and reads
the page title, both inside the `try`. -/
def click_element (d : Driver) (locator_str : String) (text : String) : ActionResult :=
  match find_element_by_locator d locator_str text 0 with
  | some el =>
    match d.click el with
    | .error e => mkError e
    | .ok _ =>
      match d.waitLoadState with
      | .error e => mkError e
      | .ok _ =>
        match d.title with
        | .error e => mkError e
        | .ok t =>
          { status := .SUCCESS,
            message := "Clicked on element with locator: " ++ "\x27" ++ locator_str
              ++ "\x27" ++ " or text: " ++ "\x27" ++ text ++ "\x27",
            title := some t, current_url := some d.url }
  | none =>
    mkError ("Element not found for click: locator=" ++ "\x27" ++ locator_str
      ++ "\x27" ++ ", text=" ++ "\x27" ++ text ++ "\x27")

/-- The input-element fallback scan of `type_text` (main.py:684-691): the first
selector in the fixed list with a positive match count, taken with `.first`.
This loop runs inside `type_text`'s own `try`, so a raising `count` probe
propagates to the handler boundary (unlike the resolver's swallowed probes). -/
def first_input_fallback (d : Driver) : List String → Except String (Option Sel)
  | [] => .ok none
  | s :: rest =>
    match d.count s with
    | .error e => .error e
    | .ok n => if 0 < n then .ok (some (s, 0)) else first_input_fallback d rest

/-- `type_text(locator_str, text)` (main.py:670-721).  Empty text errors first;
a resolved element is filled; with no resolvable element the text is typed into
the currently focused element. -/
def type_text (d : Driver) (locator_str : String) (text : String) : ActionResult :=
  if text = "" then mkError "No text provided to type"
  else
    let el0 : Option Sel :=
      if locator_str ≠ "" then find_element_by_locator d locator_str "" 0 else none
    match el0 with
    | some el =>
      match d.fill el text with
      | .error e => mkError e
      | .ok _ =>
        mkSuccess ("Typed " ++ "\x27" ++ text ++ "\x27" ++ " into input field using locator: "
          ++ "\x27" ++ locator_str ++ "\x27")
    | none =>
      match first_input_fallback d ["input", "textarea", "[contenteditable=\x27true\x27]", "[role=\x27textbox\x27]"] with
      | .error e => mkError e
      | .ok (some el) =>
        match d.fill el text with
        | .error e => mkError e
        | .ok _ =>
          mkSuccess ("Typed " ++ "\x27" ++ text ++ "\x27" ++ " into input field using locator: "
            ++ "\x27" ++ locator_str ++ "\x27")
      | .ok none =>
        match d.keyboardType text with
        | .error e => mkError e
        | .ok _ => mkSuccess ("Typed " ++ "\x27" ++ text ++ "\x27" ++ " into active element (fallback)")

/-- `scroll_page(direction, amount)` (main.py:749-779).  An unrecognized
direction runs no script and still reports success. -/
def scroll_page (d : Driver) (direction : String) (amount : Int) : ActionResult :=
  let dl := pyLower direction
  let ev : Except String Unit :=
    if dl = "down" then d.evaluate ("window.scrollBy(0, " ++ toString amount ++ ")")
    else if dl = "up" then d.evaluate ("window.scrollBy(0, -" ++ toString amount ++ ")")
    else if dl = "top" then d.evaluate "window.scrollTo(0, 0)"
    else if dl = "bottom" then d.evaluate "window.scrollTo(0, document.body.scrollHeight)"
    else if dl = "right" then d.evaluate ("window.scrollBy(" ++ toString amount ++ ", 0)")
    else if dl = "left" then d.evaluate ("window.scrollBy(-" ++ toString amount ++ ", 0)")
    else .ok ()
  match ev with
  | .error e => mkError e
  | .ok _ => mkSuccess ("Scrolled " ++ direction)

/-- `wait_for(seconds)` (main.py:781-788): `page.wait_for_timeout(seconds*1000)`. -/
def wait_for (d : Driver) (seconds : Nat) : ActionResult :=
  match d.waitTimeout (seconds * 1000) with
  | .error e => mkError e
  | .ok _ => mkSuccess ("Waited for " ++ toString seconds ++ " seconds")

/-- Python truthiness of an optional string (`if locator_str:`). -/
def truthy : Option String → Bool
  | none => false
  | some s => s ≠ ""

/-- Python `str.strip()` on text content. -/
def pyStrip (s : List Char) : List Char :=
  ((s.dropWhile Char.isWhitespace).reverse.dropWhile Char.isWhitespace).reverse

/-- The 2000-character truncation of extracted text (main.py:822):
`text_content[:2000] + "..." if len(text_content) > 2000 else text_content`. -/
def truncate2000 (s : List Char) : List Char :=
  if 2000 < s.length then s.take 2000 ++ ['.', '.', '.']
  else s

/-- The text source of `EXTRACT "text"` (main.py:798-820): a resolved
element's text content when a locator is given, else the body's; a not-found
locator or a raising `text_content()` already yields the final error dict. -/
def getTextSource (d : Driver) (locator_str : Option String) : Except ActionResult (List Char) :=
  if truthy locator_str then
    match find_element_by_locator d (locator_str.getD "") "" 0 with
    | some el =>
      match d.textContent el with
      | .ok s => .ok s
      | .error e => .error (mkError e)
    | none => .error (mkError ("Could not find element with locator: " ++ locator_str.getD ""))
  else
    match d.textContent ("body", 0) with
    | .ok s => .ok s
    | .error e => .error (mkError e)

/-- The anchor-enumeration loop of `EXTRACT "links"` (main.py:840-849):
entries whose href probe fails, whose href is `None`/empty, or whose stripped
text has length `<= 1` are skipped, never fatal. -/
def linksFrom (d : Driver) (n : Nat) : List LinkEntry :=
  (List.range n).foldl (fun acc i =>
    match d.getAttribute ("a", i) "href", d.textContent ("a", i) with
    | .ok (some href), .ok txt =>
      let t := pyStrip txt
      if href ≠ "" && 1 < t.length then acc ++ [{ url := href, text := t }] else acc
    | _, _ => acc) []

/-- The per-result loop of `EXTRACT "search_results"` (main.py:873-893):
individual extraction failures are skipped. -/
def searchResultsFrom (d : Driver) (selector : String) (n : Nat) : List SearchResult :=
  (List.range n).foldl (fun acc i =>
    match d.srTitle selector i, d.srLink selector i, d.srDescCount selector i with
    | .ok t, .ok l, .ok m =>
      if 0 < m then
        match d.srDesc selector i with
        | .ok ds => acc ++ [{ title := t, url := l, description := ds }]
        | .error _ => acc
      else acc ++ [{ title := t, url := l, description := [] }]
    | _, _, _ => acc) []

/-- The selector loop of `EXTRACT "search_results"` (main.py:868-895): the
first container selector whose results list comes out non-empty wins; a
raising container `count` probe escapes to the handler boundary. -/
def searchLoop (d : Driver) : List String → Except String (List SearchResult)
  | [] => .ok []
  | s :: rest =>
    match d.count s with
    | .error e => .error e
    | .ok c =>
      if 0 < c then
        let res := searchResultsFrom d s (min c 10)
        if res.isEmpty then searchLoop d rest else .ok res
      else searchLoop d rest

/-- `extract_content(extract_type, locator_str)` (main.py:790-924). -/
def extract_content (d : Driver) (extract_type : String) (locator_str : Option String) : ActionResult :=
  if extract_type = "text" then
    match getTextSource d locator_str with
    | .error r => r
    | .ok raw =>
      match d.title with
      | .error e => mkError e
      | .ok t =>
        { status := .SUCCESS, message := "Extracted text content",
          data := some { title := some t, url := some d.url, text := some (truncate2000 raw) } }
  else if extract_type = "links" then
    match d.count "a" with
    | .error e => mkError e
    | .ok n =>
      let links := linksFrom d (min n 20)
      match d.title with
      | .error e => mkError e
      | .ok t =>
        { status := .SUCCESS, message := "Extracted " ++ toString links.length ++ " links",
          data := some { title := some t, url := some d.url, links := some links } }
  else if extract_type = "search_results" then
    match searchLoop d ["div.g", "div[data-sokoban-container]", "div.v7W49e"] with
    | .error e => mkError e
    | .ok res =>
      match d.title with
      | .error e => mkError e
      | .ok t =>
        { status := .SUCCESS, message := "Extracted " ++ toString res.length ++ " search results",
          data := some { query := some (t.replace " - Google Search" ""),
                         url := some d.url, results := some res } }
  else if extract_type = "element_text" ∧ truthy locator_str then
    match find_element_by_locator d (locator_str.getD "") "" 0 with
    | some el =>
      match d.textContent el with
      | .error e => mkError e
      | .ok s =>
        { status := .SUCCESS,
          message := "Extracted text from element with locator " ++ "\x27" ++ locator_str.getD "" ++ "\x27",
          data := some { text := some s, url := some d.url } }
    | none =>
      mkError ("Element with locator " ++ "\x27" ++ locator_str.getD "" ++ "\x27"
        ++ " not found for extraction.")
  else mkError ("Unknown extract type: " ++ extract_type)

/-- The dispatch body of `execute_action` (main.py:451-493): the kind string is
upper-cased once, then compared against the closed enumeration; defaults are
the `details.get` defaults of the source. -/
def execute_dispatch (action_type : String) (details : Details) (d : Driver) : ActionResult :=
  if action_type = "CLICK" then
    click_element d (details.locator.getD "") (details.text.getD "")
  else if action_type = "TYPE" then
    type_text d (details.locator.getD "") (details.text.getD "")
  else if action_type = "NAVIGATE" then
    (navigate_to_url d (details.url.getD "")).1
  else if action_type = "SCROLL" then
    scroll_page d (details.direction.getD "down") (details.amount.getD 300)
  else if action_type = "WAIT" then
    wait_for d (details.seconds.getD 3)
  else if action_type = "EXTRACT" then
    extract_content d (details.type.getD "text") details.locator
  else if action_type = "EXPLORE_WEBSITE" then
    mkSuccess "Website exploration action acknowledged."
  else if action_type ∈ ["TASK_COMPLETE", "ABORT", "MANUAL_CAPTCHA", "RETRY"] then
    mkSuccess "Action acknowledged"
  else
    mkError ("Unknown action type: " ++ action_type)

/-- `execute_action(action_data)` (main.py:449-496).  The surrounding
`try/except` at main.py:456-496 is the dispatch boundary; every handler above
already converts its own driver faults, so the embedded dispatch is total. -/
def execute_action (a : Proposal) (d : Driver) : ActionResult :=
  execute_dispatch (pyUpper a.action) a.details d

/-! ## 4.4 Site Crawler — `explore_website` (main.py:498-548)

The web is an oracle `web : String → Option (List String)`: `none` models
`navigate_to_url` returning an `ERROR` dict for that URL (the branch is then
abandoned, main.py:506-508), and `some links` models a successful navigation
together with the absolutized (`urljoin`) candidate hrefs gathered by the link
loop; a per-link fault (main.py:540-542) or an un-absolutizable href simply
does not appear in the list, which is observationally the same crawl.
`netloc` is `urlparse(·).netloc`.  The screenshot / text-extraction /
memory-store step (main.py:512-520) mutates only the memory store, which no
crawl claim mentions, and is not modelled.

`self.explored_urls` is a Python set; we model it as a duplicate-free list in
insertion order (theorem `C2_crawl_invariants` proves the no-duplicates
invariant).  `navs` is a ghost log of the navigations the crawl performs, each
tagged with the recursion depth of the frame issuing it. -/

/-- Crawl state: visited set plus the ghost navigation log. -/
structure CrawlSt where
  visited : List String := []
  navs : List (String × Nat) := []
deriving DecidableEq, Repr

/-- Recursion engine of `explore_website`, structurally recursive on the fuel
`max_depth - current_depth`.  `fuel = 0` is exactly the source guard
`current_depth >= max_depth` (main.py:500); a recursive call at
`current_depth + 1` (main.py:545) has fuel `max_depth - (current_depth+1) =
fuel - 1`.  The candidate set (main.py:526-542) keeps same-origin http(s)
links not already explored, deduplicated (a Python `set`). -/
def exploreGo (web : String → Option (List String)) (netloc : String → String) :
    Nat → String → Nat → CrawlSt → CrawlSt
  | 0, _, _, st => st
  | fuel + 1, url, depth, st =>
    if url ∈ st.visited then st
    else
      let st1 : CrawlSt := { st with navs := st.navs ++ [(url, depth)] }
      match web url with
      | none => st1
      | some links =>
        let st2 : CrawlSt := { st1 with visited := st1.visited ++ [url] }
        let cands := (links.filter fun l =>
          (pyStartsWith l "http://" || pyStartsWith l "https://")
            && netloc l == netloc url
            && !(st2.visited.contains l)).eraseDups
        cands.foldl (fun acc u => exploreGo web netloc fuel u (depth + 1) acc) st2

/-- `explore_website(url, max_depth, current_depth)` (main.py:498-548). -/
def explore_website (web : String → Option (List String)) (netloc : String → String)
    (max_depth : Nat) (url : String) (current_depth : Nat) (st : CrawlSt) : CrawlSt :=
  exploreGo web netloc (max_depth - current_depth) url current_depth st

/-- The assistant state relevant to crawling: `self.explored_urls`, created
empty in `__init__` (main.py:51) and never cleared afterwards. -/
structure AssistantSt where
  explored : List String := []
deriving DecidableEq, Repr

/-- One top-level crawl invocation as issued by the control loop
(main.py:192: `self.explore_website(url=self.page.url, max_depth=2)` — the
recursion starts from the *persistent* `self.explored_urls`).  Returns the
updated assistant state and the navigations this invocation performed. -/
def explore_invocation (web : String → Option (List String)) (netloc : String → String)
    (max_depth : Nat) (url : String) (a : AssistantSt) : AssistantSt × List (String × Nat) :=
  let r := explore_website web netloc max_depth url 0 { visited := a.explored, navs := [] }
  ({ explored := r.visited }, r.navs)

/-! ## 4.5 / §6 Planner decoding and the Agent Control Loop (main.py:141-242,
244-362, 376-447, 960-992)

The planner transport (`model.generate_content`) and `json.loads` are external
capabilities: a planner reply is `Option String` (`none` = the call raised),
and `decode : String → Option Proposal` models `json.loads`-plus-schema
(`none` = `json.JSONDecodeError`). -/

/-- The code-fence stripping of the planner response (main.py:332-337 and
430-435).  The guards `startsWith` ensure the separator occurs, so the Python
index `[1]` cannot fail. -/
def stripFences (response_text : String) : String :=
  if pyStartsWith response_text "```json" then
    ((((response_text.splitOn "```json").get? 1).getD "").splitOn "```").headD "" |>.trim
  else if pyStartsWith response_text "```" then
    (((response_text.splitOn "```").get? 1).getD "").trim
  else response_text

/-- The synthesized proposal for a planner transport failure (main.py:355-362). -/
def transport_failure_wait : Proposal :=
  { action := "WAIT", details := { seconds := some 10 },
    reasoning := "Gemini API call failed. Waiting and will re-prompt.",
    message := "Waiting for 10 seconds due to API error. Re-prompting." }

/-- The synthesized proposal for a planner decode failure (main.py:345-353). -/
def decode_failure_wait : Proposal :=
  { action := "WAIT", details := { seconds := some 5 },
    reasoning := "JSON parsing failed. Waiting and will re-prompt.",
    message := "Waiting for 5 seconds due to API response error. Re-prompting." }

/-- `get_next_action_from_gemini` (main.py:244-362), as a function of the
planner reply: the response text is stripped (`.strip()`, main.py:329), any
code fences removed, and decoded; decode failure degrades to `WAIT(5s)`,
transport failure to `WAIT(10s)`. -/
def get_next_action_from_gemini (decode : String → Option Proposal)
    (response : Option String) : Proposal :=
  match response with
  | none => transport_failure_wait
  | some raw =>
    match decode (stripFences raw.trim) with
    | some action_data => action_data
    | none => decode_failure_wait

/-- `get_recovery_action` (main.py:376-447): decode or transport failure both
degrade to an `ABORT` proposal. -/
def get_recovery_action (decode : String → Option Proposal)
    (response : Option String) : Proposal :=
  match response with
  | none => { action := "ABORT", reasoning := "API error during recovery action request." }
  | some raw =>
    match decode (stripFences raw.trim) with
    | some a => a
    | none => { action := "ABORT", reasoning := "Could not parse recovery action from Gemini." }

/-- One entry of `self.action_history` as appended at main.py:173-178: the
dict literal has exactly the keys `step`, `action`, `details`, `screenshot` —
in particular *no* `status` key, so `record.get("status")` is always `None`. -/
structure StepRecord where
  step : Nat
  action : String
  details : Details := {}
  status : Option String := none
deriving DecidableEq, Repr

/-- The control-loop state of `execute_task` (main.py:141-242).  `execLog` is
a ghost log of every `execute_action` result produced during the run (the
source stores these only in `internal_monologue`); `explored` is
`self.explored_urls`. -/
structure LoopState where
  step : Nat := 0
  retries : Nat := 0
  halted : Bool := false
  history : List StepRecord := []
  execLog : List ActionResult := []
  explored : List String := []
deriving DecidableEq, Repr

/-- The environment of one loop iteration: the planner reply for the step, the
driver behaviour during the action, and (if an error triggers recovery) the
recovery planner reply and driver behaviour. -/
structure StepInput where
  planner : Option String
  driver : Driver
  recoveryPlanner : Option String
  recoveryDriver : Driver

/-- One iteration of the `while` loop of `execute_task` (main.py:157-225):
step counter increment, planner query, history append, then the transition
table on the proposal kind; an executor `ERROR` runs exactly one recovery
proposal (ABORT or a second error halts the task). -/
def execute_task_step (decode : String → Option Proposal)
    (web : String → Option (List String)) (netloc : String → String)
    (s : LoopState) (i : StepInput) : LoopState :=
  let next_action := get_next_action_from_gemini decode i.planner
  let s1 : LoopState := { s with
    step := s.step + 1,
    history := s.history ++ [{ step := s.step + 1, action := next_action.action,
                               details := next_action.details }] }
  if next_action.action = "TASK_COMPLETE" then { s1 with halted := true }
  else if next_action.action = "MANUAL_CAPTCHA" then s1
  else if next_action.action = "EXPLORE_WEBSITE" then
    let r := explore_website web netloc 2 i.driver.url 0 { visited := s1.explored, navs := [] }
    { s1 with explored := r.visited }
  else if next_action.action = "RETRY" then
    if 3 < s.retries + 1 then { s1 with retries := s.retries + 1, halted := true }
    else { s1 with retries := s.retries + 1 }
  else
    let s2 : LoopState := { s1 with retries := 0 }
    let status := execute_action next_action i.driver
    let s3 : LoopState := { s2 with execLog := s2.execLog ++ [status] }
    if status.status = Status.ERROR then
      let recovery_action := get_recovery_action decode i.recoveryPlanner
      if recovery_action.action = "ABORT" then { s3 with halted := true }
      else
        let recovery_status := execute_action recovery_action i.recoveryDriver
        let s4 : LoopState := { s3 with execLog := s3.execLog ++ [recovery_status] }
        if recovery_status.status = Status.ERROR then { s4 with halted := true } else s4
    else s3

/-- The `while current_step < max_steps` loop of `execute_task`
(main.py:151-225), `max_steps = 30`, driven by a list of step environments. -/
def execute_task (decode : String → Option Proposal)
    (web : String → Option (List String)) (netloc : String → String) :
    List StepInput → LoopState → LoopState
  | [], s => s
  | i :: rest, s =>
    if s.halted = true ∨ 30 ≤ s.step then s
    else execute_task decode web netloc rest (execute_task_step decode web netloc s i)

/-- The trace of loop states visited by `execute_task` (for stating the
invariants of C3 over every reachable state). -/
def loop_states (decode : String → Option Proposal)
    (web : String → Option (List String)) (netloc : String → String) :
    List StepInput → LoopState → List LoopState
  | [], s => [s]
  | i :: rest, s =>
    if s.halted = true ∨ 30 ≤ s.step then [s]
    else s :: loop_states decode web netloc rest (execute_task_step decode web netloc s i)

/-- The step counts reported by `generate_task_summary` (main.py:960-992);
the final-URL/title lines and the trailing page-text excerpt are formatting of
driver reads and are not modelled. -/
structure TaskSummary where
  successful_steps : Nat
  error_steps : Nat
  manual_captcha_steps : Nat
  exploration_steps : Nat
deriving DecidableEq, Repr

/-- `generate_task_summary` counting (main.py:962-969): it reads
`action.get("status")` from the history records. -/
def generate_task_summary (history : List StepRecord) : TaskSummary :=
  { successful_steps := history.countP (fun r =>
      decide (r.action ∉ ["TASK_COMPLETE", "ABORT", "MANUAL_CAPTCHA", "RETRY", "EXPLORE_WEBSITE"]
        ∧ r.status = some "SUCCESS")),
    error_steps := history.countP (fun r => decide (r.status = some "ERROR")),
    manual_captcha_steps := history.countP (fun r => decide (r.action = "MANUAL_CAPTCHA")),
    exploration_steps := history.countP (fun r => decide (r.action = "EXPLORE_WEBSITE")) }

/-- The number of executor calls that actually returned an `ERROR` result
during the run (recorded in the ghost `execLog`). -/
def exec_error_count (s : LoopState) : Nat :=
  s.execLog.countP (fun r => decide (r.status = Status.ERROR))

/-! ## Concrete instances used by counterexamples and witnesses -/

/-- A benign driver: every probe finds nothing, every operation succeeds. -/
def d0 : Driver :=
  { count := fun _ => .ok 0, click := fun _ => .ok (), waitLoadState := .ok (),
    fill := fun _ _ => .ok (), keyboardType := fun _ => .ok (), goto := fun _ => .ok (),
    evaluate := fun _ => .ok (), waitTimeout := fun _ => .ok (),
    textContent := fun _ => .ok [], getAttribute := fun _ _ => .ok none,
    title := .ok "T", url := "https://t/",
    srTitle := fun _ _ => .ok [], srLink := fun _ _ => .ok none,
    srDescCount := fun _ _ => .ok 0, srDesc := fun _ _ => .ok [] }

/-- A driver on a page where locator `#x` matches three elements. -/
def dC : Driver := { d0 with count := fun s => if s = "#x" then .ok 3 else .ok 0 }

/-- A driver whose first text strategy for `hi` matches twice. -/
def dT : Driver := { d0 with count := fun s => if s = "text=hi" then .ok 2 else .ok 0 }

/-- A three-page same-origin site: `a` links (with a duplicate and a
self-link) to `b`; `b` links back to `a` and on to `c`; `c` is a leaf. -/
def web0 : String → Option (List String) := fun u =>
  if u = "https://s/a" then some ["https://s/b", "https://s/b", "https://s/a"]
  else if u = "https://s/b" then some ["https://s/a", "https://s/c"]
  else if u = "https://s/c" then some []
  else none

/-- `urlparse(·).netloc` for the site of `web0`. -/
def nl0 : String → String := fun _ => "s"

/-- A planner decode for the C1 failing run: every reply decodes to
`CLICK #btn`, so the recovery proposal is that same click.  Over `d0` no
element matches, hence both the original and the recovery action error. -/
def decBug : String → Option Proposal := fun _ =>
  some { action := "CLICK", details := { locator := some "#btn" } }

/-- The single step environment of the C1 failing run. -/
def inpBug : StepInput :=
  { planner := some "p", driver := d0,
    recoveryPlanner := some "r", recoveryDriver := d0 }

/-- Drivers raising in one specific primitive each (C5 witnesses). -/
def dClickErr : Driver :=
  { d0 with count := fun s => if s = "#x" then .ok 1 else .ok 0,
            click := fun _ => .error "click raised" }

def dFillErr : Driver :=
  { d0 with count := fun s => if s = "#x" then .ok 1 else .ok 0,
            fill := fun _ _ => .error "fill raised" }

def dGotoErr : Driver := { d0 with goto := fun _ => .error "goto raised" }

def dEvalErr : Driver := { d0 with evaluate := fun _ => .error "evaluate raised" }

def dWaitErr : Driver := { d0 with waitTimeout := fun _ => .error "wait raised" }

def dTextErr : Driver := { d0 with textContent := fun _ => .error "text_content raised" }

/-- A driver whose body text is 2001 characters long (C6 witness). -/
def dLong : Driver := { d0 with textContent := fun _ => .ok (List.replicate 2001 'a') }

/-- A decode that fails on every string (planner decode failure). -/
def decNone : String → Option Proposal := fun _ => none

/-- A decode that always proposes RETRY. -/
def decRetry : String → Option Proposal := fun _ => some { action := "RETRY" }

/-- A decode that always proposes CLICK (a retry-count-resetting kind). -/
def decClick : String → Option Proposal := fun _ => some { action := "CLICK" }

/-- A step environment over the benign driver with an arbitrary planner reply. -/
def inp0 : StepInput :=
  { planner := some "x", driver := d0, recoveryPlanner := some "x", recoveryDriver := d0 }

/-! ## Invariant predicates -/

/-- Relation between a crawl state and any state a crawl grows it into:
the visited set only grows, stays duplicate-free, and every new navigation
happened at a depth `< m` to a URL outside the original visited set. -/
def CrawlExt (m : Nat) (st st' : CrawlSt) : Prop :=
  (∀ u, u ∈ st.visited → u ∈ st'.visited)
  ∧ (st.visited.Nodup → st'.visited.Nodup)
  ∧ (∀ p : String × Nat, p ∈ st'.navs → p ∈ st.navs ∨ (p.2 < m ∧ p.1 ∉ st.visited))

/-- The control-loop budget invariant: the step counter stays within
`max_steps = 30`, and the retry counter exceeds `max_retry_attempts = 3` only
in the very state that halts the loop. -/
def LoopInv (s : LoopState) : Prop :=
  s.step ≤ 30 ∧ (s.retries ≤ 3 ∨ (s.retries = 4 ∧ s.halted = true))

/-! # Theorems -/

/-- C8: for every locator resolution where the locator expression matches
`n > 0` elements and index `i` is requested, the `i`-th match is selected when
`0 <= i < n` and the first match otherwise — an out-of-range index is silently
discarded, never an error or not-found; and the same index/first rule applies
to the first text-fallback strategy yielding at least one match. -/
theorem C8_locator_index_rule (d : Driver) (l t : String) (i : Int) :
    (∀ n : Nat, 0 < n →
      (0 ≤ i ∧ i < (n : Int) → chosen i n = i.toNat)
      ∧ (¬(0 ≤ i ∧ i < (n : Int)) → chosen i n = 0))
    ∧ (∀ n : Nat, l ≠ "" → d.count l = .ok n → 0 < n →
        find_element_by_locator d l t i = some (l, chosen i n))
    ∧ (∀ (pre rest : List String) (s : String) (m : Nat),
        (∀ sp ∈ pre, d.count sp = .ok 0) → d.count s = .ok m → 0 < m →
        try_strategies d i (pre ++ s :: rest) = some (s, chosen i m))
    ∧ (l = "" → t ≠ "" →
        find_element_by_locator d l t i
          = try_strategies d i (text_locator_strategies t i)) := by
  refine ⟨?_, ?_, ?_, ?_⟩
  · intro n _
    constructor
    · intro h; simp [chosen, h]
    · intro h; simp [chosen]; intro h1 h2; exact absurd ⟨h1, h2⟩ h
  · intro n hl hc hn
    unfold find_element_by_locator
    rw [if_pos hl, hc]
    simp [hn]
  · intro pre rest s m hpre hs hm
    induction pre with
    | nil =>
      simp only [List.nil_append]
      unfold try_strategies
      rw [hs]
      simp [hm]
    | cons p ps ih =>
      have hp : d.count p = .ok 0 := hpre p (by simp)
      simp only [List.cons_append]
      unfold try_strategies
      rw [hp]
      simpa using ih (fun sp hsp => hpre sp (by simp [hsp]))
  · intro hl ht
    unfold find_element_by_locator
    rw [if_neg (by simp [hl]), if_pos ht]

/-- Witness for C8 at concrete inputs: locator `#x` matches 3 elements; the
out-of-range index 5 selects match 0 and index 2 selects match 2; the first
text strategy for `hi` matches twice and index 5 again selects match 0. -/
theorem C8_witness :
    (chosen 5 3 = 0 ∧ chosen 2 3 = 2)
    ∧ find_element_by_locator dC "#x" "" 5 = some ("#x", chosen 5 3)
    ∧ try_strategies dT 5 ([] ++ "text=hi" :: ("text_locator_strategies hi".splitOn ";"))
        = some ("text=hi", chosen 5 2)
    ∧ find_element_by_locator dT "" "hi" 5
        = try_strategies dT 5 (text_locator_strategies "hi" 5) := by
  refine ⟨⟨((C8_locator_index_rule dC "#x" "" 5).1 3 (by decide)).2 (by decide),
          ((C8_locator_index_rule dC "#x" "" 2).1 3 (by decide)).1 (by decide)⟩,
         (C8_locator_index_rule dC "#x" "" 5).2.1 3 (by decide) rfl (by decide),
         (C8_locator_index_rule dT "" "hi" 5).2.2.1 [] _ "text=hi" 2
           (by intro sp hsp; exact absurd hsp (List.not_mem_nil sp)) rfl (by decide),
         (C8_locator_index_rule dT "" "hi" 5).2.2.2 rfl (by decide)⟩

/-- C10: action dispatch is case-insensitive in the proposal kind — the kind
string is upper-cased before the dispatch comparison, so two proposals whose
kinds agree up to case produce the same result. -/
theorem C10_case_insensitive_dispatch (k1 k2 : String) (dts : Details)
    (r1 r2 m1 m2 : String) (d : Driver) (h : pyUpper k1 = pyUpper k2) :
    execute_action { action := k1, details := dts, reasoning := r1, message := m1 } d
      = execute_action { action := k2, details := dts, reasoning := r2, message := m2 } d := by
  unfold execute_action
  dsimp only
  rw [h]

/-- Witness for C10: `retry`, `Retry` and `RETRY` dispatch identically. -/
theorem C10_witness :
    execute_action { action := "retry" } d0 = execute_action { action := "RETRY" } d0
    ∧ execute_action { action := "Retry" } d0 = execute_action { action := "RETRY" } d0 := by
  exact ⟨C10_case_insensitive_dispatch "retry" "RETRY" {} "" "" "" "" d0 (by decide),
         C10_case_insensitive_dispatch "Retry" "RETRY" {} "" "" "" "" d0 (by decide)⟩

/-- C5: `execute_action` always returns an `ActionResult` (it is a total
function of the proposal and the driver oracle): a kind outside the closed
enumeration yields `ERROR "Unknown action type: ..."`, and a driver primitive
raising during dispatch — at the click, fill, goto, scroll-script, wait or
text-content step of the corresponding handler — is caught and converted into
`ActionResult{ERROR, message}`. -/
theorem C5_executor_error_boundary (a : Proposal) (d : Driver) :
    (pyUpper a.action ∉
        (["CLICK", "TYPE", "NAVIGATE", "SCROLL", "WAIT", "EXTRACT", "EXPLORE_WEBSITE",
          "TASK_COMPLETE", "ABORT", "MANUAL_CAPTCHA", "RETRY"] : List String) →
      execute_action a d = mkError ("Unknown action type: " ++ pyUpper a.action))
    ∧ (∀ el e, pyUpper a.action = "CLICK" →
        find_element_by_locator d (a.details.locator.getD "") (a.details.text.getD "") 0 = some el →
        d.click el = .error e → execute_action a d = mkError e)
    ∧ (∀ el e, pyUpper a.action = "TYPE" → a.details.text.getD "" ≠ "" →
        a.details.locator.getD "" ≠ "" →
        find_element_by_locator d (a.details.locator.getD "") "" 0 = some el →
        d.fill el (a.details.text.getD "") = .error e → execute_action a d = mkError e)
    ∧ (∀ e, pyUpper a.action = "NAVIGATE" → a.details.url.getD "" ≠ "" →
        d.goto (withScheme (a.details.url.getD "")) = .error e → execute_action a d = mkError e)
    ∧ (∀ e, pyUpper a.action = "SCROLL" → pyLower (a.details.direction.getD "down") = "down" →
        d.evaluate ("window.scrollBy(0, " ++ toString (a.details.amount.getD 300) ++ ")") = .error e →
        execute_action a d = mkError e)
    ∧ (∀ e, pyUpper a.action = "WAIT" →
        d.waitTimeout (a.details.seconds.getD 3 * 1000) = .error e → execute_action a d = mkError e)
    ∧ (∀ e, pyUpper a.action = "EXTRACT" → a.details.type.getD "text" = "text" →
        truthy a.details.locator = false → d.textContent ("body", 0) = .error e →
        execute_action a d = mkError e) := by
  refine ⟨?_, ?_, ?_, ?_, ?_, ?_, ?_⟩
  · intro h
    simp only [List.mem_cons, List.mem_singleton, not_or] at h
    obtain ⟨h1, h2, h3, h4, h5, h6, h7, h8, h9, h10, h11, -⟩ := h
    unfold execute_action execute_dispatch
    simp [h1, h2, h3, h4, h5, h6, h7, h8, h9, h10, h11]
  · intro el e h1 h2 h3
    unfold execute_action execute_dispatch
    rw [h1]
    simp only [String.reduceEq, reduceIte]
    unfold click_element
    rw [h2]
    simp [h3]
  · intro el e h1 ht hl h2 h3
    unfold execute_action execute_dispatch
    rw [h1]
    simp only [String.reduceEq, reduceIte]
    unfold type_text
    rw [if_neg ht]
    simp only [if_pos hl, h2, h3]
  · intro e h1 hu h2
    unfold execute_action execute_dispatch
    rw [h1]
    simp only [String.reduceEq, reduceIte]
    unfold navigate_to_url
    rw [if_neg hu]
    simp [h2]
  · intro e h1 hdir h2
    unfold execute_action execute_dispatch
    rw [h1]
    simp only [String.reduceEq, reduceIte]
    simp only [scroll_page, hdir, String.reduceEq, reduceIte]
    simp [h2]
  · intro e h1 h2
    unfold execute_action execute_dispatch
    rw [h1]
    simp only [String.reduceEq, reduceIte]
    unfold wait_for
    simp [h2]
  · intro e h1 h2 h3 h4
    unfold execute_action execute_dispatch
    rw [h1, h2]
    simp only [String.reduceEq, reduceIte]
    unfold extract_content getTextSource
    simp only [String.reduceEq, reduceIte, h3, Bool.false_eq_true, if_false]
    simp [h4]

/-- Witness for C5: an unknown kind `fly`, and one concrete raising driver per
handler, each converted to the raised message. -/
theorem C5_witness :
    execute_action { action := "fly" } d0 = mkError "Unknown action type: FLY"
    ∧ execute_action { action := "CLICK", details := { locator := some "#x" } } dClickErr
        = mkError "click raised"
    ∧ execute_action { action := "TYPE", details := { locator := some "#x", text := some "hi" } } dFillErr
        = mkError "fill raised"
    ∧ execute_action { action := "NAVIGATE", details := { url := some "example.com" } } dGotoErr
        = mkError "goto raised"
    ∧ execute_action { action := "SCROLL" } dEvalErr = mkError "evaluate raised"
    ∧ execute_action { action := "WAIT" } dWaitErr = mkError "wait raised"
    ∧ execute_action { action := "EXTRACT" } dTextErr = mkError "text_content raised" := by
  refine ⟨(C5_executor_error_boundary { action := "fly" } d0).1 (by decide),
    (C5_executor_error_boundary _ dClickErr).2.1 ("#x", 0) "click raised" (by decide) rfl rfl,
    (C5_executor_error_boundary _ dFillErr).2.2.1 ("#x", 0) "fill raised" (by decide) (by decide)
      (by decide) rfl rfl,
    (C5_executor_error_boundary _ dGotoErr).2.2.2.1 "goto raised" (by decide) (by decide) rfl,
    (C5_executor_error_boundary _ dEvalErr).2.2.2.2.1 "evaluate raised" (by decide) (by decide) rfl,
    (C5_executor_error_boundary _ dWaitErr).2.2.2.2.2.1 "wait raised" (by decide) rfl,
    (C5_executor_error_boundary _ dTextErr).2.2.2.2.2.2 "text_content raised" (by decide)
      (by decide) (by decide) rfl⟩

/-- Every error branch of the text-source resolution produces an `ERROR`
result dict (helper for C6). -/
theorem getTextSource_error_status (d : Driver) (l : Option String) (r : ActionResult)
    (h : getTextSource d l = .error r) : r.status = Status.ERROR := by
  unfold getTextSource at h
  by_cases ht : truthy l
  · rw [if_pos ht] at h
    cases hf : find_element_by_locator d (l.getD "") "" 0 with
    | some el =>
      rw [hf] at h
      dsimp only at h
      cases htc : d.textContent el with
      | ok s => rw [htc] at h; simp at h
      | error e => rw [htc] at h; simp only [Except.error.injEq] at h; subst h; rfl
    | none =>
      rw [hf] at h; simp only [Except.error.injEq] at h; subst h; rfl
  · rw [if_neg ht] at h
    cases htc : d.textContent ("body", 0) with
    | ok s => rw [htc] at h; simp at h
    | error e => rw [htc] at h; simp only [Except.error.injEq] at h; subst h; rfl

/-- C6: every successful `EXTRACT "text"` returns text of length at most 2003
characters — a source text longer than 2000 characters is truncated to its
first 2000 characters plus the three-character ellipsis marker, and a shorter
one is returned unchanged. -/
theorem C6_extract_text_truncation (d : Driver) (locator_str : Option String) :
    (∀ raw : List Char,
      (truncate2000 raw).length ≤ 2003
      ∧ (2000 < raw.length → truncate2000 raw = raw.take 2000 ++ ['.', '.', '.'])
      ∧ (raw.length ≤ 2000 → truncate2000 raw = raw))
    ∧ ((extract_content d "text" locator_str).status = Status.SUCCESS →
        ∃ raw t, getTextSource d locator_str = .ok raw
          ∧ (extract_content d "text" locator_str).data.bind EData.text = some t
          ∧ t = truncate2000 raw ∧ t.length ≤ 2003) := by
  have hlen : ∀ raw : List Char, (truncate2000 raw).length ≤ 2003 := by
    intro raw
    unfold truncate2000
    split
    · simp only [List.length_append, List.length_take, List.length_cons, List.length_nil]
      omega
    · omega
  refine ⟨fun raw => ⟨hlen raw,
      fun h => by unfold truncate2000; rw [if_pos h],
      fun h => by unfold truncate2000; rw [if_neg (by omega)]⟩, ?_⟩
  intro hs
  cases hg : getTextSource d locator_str with
  | error r =>
    have hE : extract_content d "text" locator_str = r := by
      unfold extract_content
      simp only [String.reduceEq, reduceIte]
      rw [hg]
    rw [hE, getTextSource_error_status d locator_str r hg] at hs
    exact absurd hs (by decide)
  | ok raw =>
    cases htitle : d.title with
    | error e =>
      have hE : extract_content d "text" locator_str = mkError e := by
        unfold extract_content
        simp only [String.reduceEq, reduceIte]
        rw [hg, htitle]
      rw [hE] at hs
      simp [mkError] at hs
    | ok t =>
      have hE : extract_content d "text" locator_str
          = { status := .SUCCESS, message := "Extracted text content",
              data := some { title := some t, url := some d.url,
                             text := some (truncate2000 raw) } } := by
        unfold extract_content
        simp only [String.reduceEq, reduceIte]
        rw [hg, htitle]
      exact ⟨raw, truncate2000 raw, rfl, by rw [hE]; rfl, rfl, hlen raw⟩

/-- Witness for C6: a 2001-character body is truncated to 2000 plus the
ellipsis; a 1-character body is returned unchanged; the concrete extraction
over the long-body driver satisfies the bound. -/
theorem C6_witness :
    ((truncate2000 (List.replicate 2001 'a')).length ≤ 2003
      ∧ truncate2000 (List.replicate 2001 'a')
          = (List.replicate 2001 'a').take 2000 ++ ['.', '.', '.'])
    ∧ truncate2000 ['h'] = ['h']
    ∧ ∃ raw t, getTextSource dLong none = .ok raw
        ∧ (extract_content dLong "text" none).data.bind EData.text = some t
        ∧ t = truncate2000 raw ∧ t.length ≤ 2003 := by
  refine ⟨⟨((C6_extract_text_truncation dLong none).1 _).1,
          ((C6_extract_text_truncation dLong none).1 _).2.1
            (by rw [List.length_replicate]; norm_num)⟩,
         ((C6_extract_text_truncation dLong none).1 ['h']).2.2 (by simp),
         (C6_extract_text_truncation dLong none).2 rfl⟩

/-- C9: `navigate_to_url` errors with "No URL provided" exactly on the empty
URL (the empty check precedes any driver call, so no navigation event is
emitted); a non-empty URL is prefixed with `https://` when schemeless and
navigated as-is otherwise; and on navigation success the Dialog Dismisser is
invoked exactly once, after the `goto` and before the `SUCCESS` return. -/
theorem C9_navigate_contract (d : Driver) (url : String) :
    (url = "" → navigate_to_url d url = (mkError "No URL provided", []))
    ∧ (url ≠ "" →
        withScheme url
          = (if pyStartsWith url "http://" || pyStartsWith url "https://" then url
             else "https://" ++ url)
        ∧ (navigate_to_url d url).2.head? = some (Event.goto (withScheme url))
        ∧ (∀ t, d.goto (withScheme url) = .ok () → d.title = .ok t →
            (navigate_to_url d url).1.status = Status.SUCCESS
            ∧ (navigate_to_url d url).2
                = [Event.goto (withScheme url), Event.dialogScan])) := by
  constructor
  · intro h
    unfold navigate_to_url
    rw [if_pos h]
  · intro h
    refine ⟨rfl, ?_, ?_⟩
    · unfold navigate_to_url
      rw [if_neg h]
      cases hg : d.goto (withScheme url) with
      | error e => simp [hg]
      | ok u =>
        cases ht : d.title with
        | error e => simp [hg, ht]
        | ok t => simp [hg, ht]
    · intro t hg ht
      unfold navigate_to_url
      rw [if_neg h]
      simp [hg, ht]

/-- Witness for C9: the empty URL, and a schemeless URL navigated over the
benign driver. -/
theorem C9_witness :
    navigate_to_url d0 "" = (mkError "No URL provided", [])
    ∧ (navigate_to_url d0 "example.com").2.head? = some (Event.goto (withScheme "example.com"))
    ∧ (navigate_to_url d0 "example.com").1.status = Status.SUCCESS
    ∧ (navigate_to_url d0 "example.com").2
        = [Event.goto (withScheme "example.com"), Event.dialogScan] := by
  refine ⟨(C9_navigate_contract d0 "").1 rfl,
         ((C9_navigate_contract d0 "example.com").2 (by decide)).2.1,
         (((C9_navigate_contract d0 "example.com").2 (by decide)).2.2 "T" rfl rfl).1,
         (((C9_navigate_contract d0 "example.com").2 (by decide)).2.2 "T" rfl rfl).2⟩

/-- A reflexive-transitive relation is preserved by `List.foldl` when every
step respects it. -/
theorem foldl_rel {α β : Type} (R : β → β → Prop)
    (hrefl : ∀ b, R b b) (htrans : ∀ a b c, R a b → R b c → R a c)
    (l : List α) (f : β → α → β) (b : β)
    (hf : ∀ b a, a ∈ l → R b (f b a)) : R b (l.foldl f b) := by
  induction l generalizing b with
  | nil => exact hrefl b
  | cons x xs ih =>
    exact htrans _ _ _ (hf b x (by simp))
      (ih _ (fun b a ha => hf b a (by simp [ha])))

theorem crawlExt_refl (m : Nat) (st : CrawlSt) : CrawlExt m st st :=
  ⟨fun _ h => h, fun h => h, fun _ hp => Or.inl hp⟩

theorem crawlExt_trans (m : Nat) (a b c : CrawlSt)
    (hab : CrawlExt m a b) (hbc : CrawlExt m b c) : CrawlExt m a c := by
  refine ⟨fun u hu => hbc.1 u (hab.1 u hu), fun h => hbc.2.1 (hab.2.1 h), ?_⟩
  intro p hp
  rcases hbc.2.2 p hp with h | h
  · exact hab.2.2 p h
  · exact Or.inr ⟨h.1, fun hmem => h.2 (hab.1 p.1 hmem)⟩

/-- Main crawl invariant: a crawl frame with fuel `fuel` at depth `depth`
(where `fuel + depth ≤ m`) only grows the state along `CrawlExt m`. -/
theorem exploreGo_ext (web : String → Option (List String)) (netloc : String → String)
    (m : Nat) : ∀ (fuel : Nat) (url : String) (depth : Nat) (st : CrawlSt),
    fuel + depth ≤ m → CrawlExt m st (exploreGo web netloc fuel url depth st) := by
  intro fuel
  induction fuel with
  | zero => intro url depth st _; exact crawlExt_refl m st
  | succ k ih =>
    intro url depth st hd
    unfold exploreGo
    by_cases hv : url ∈ st.visited
    · rw [if_pos hv]; exact crawlExt_refl m st
    · rw [if_neg hv]
      cases hw : web url with
      | none =>
        refine ⟨fun u hu => hu, fun h => h, ?_⟩
        intro p hp
        simp only [List.mem_append, List.mem_singleton] at hp
        rcases hp with hp | hp
        · exact Or.inl hp
        · subst hp; exact Or.inr ⟨by omega, hv⟩
      | some links =>
        have hst2 : CrawlExt m st
            { visited := st.visited ++ [url], navs := st.navs ++ [(url, depth)] } := by
          refine ⟨fun u hu => by simp [hu], ?_, ?_⟩
          · intro h
            simp only [List.nodup_append, List.nodup_cons, List.nodup_nil, and_true,
              List.not_mem_nil, not_false_iff, List.disjoint_singleton]
            exact ⟨h, by simp, hv⟩
          · intro p hp
            simp only [List.mem_append, List.mem_singleton] at hp
            rcases hp with hp | hp
            · exact Or.inl hp
            · subst hp; exact Or.inr ⟨by omega, hv⟩
        refine crawlExt_trans m _ _ _ hst2 ?_
        exact foldl_rel (CrawlExt m) (crawlExt_refl m) (crawlExt_trans m) _ _ _
          (fun acc u _ => ih u (depth + 1) acc (by omega))

/-- `explore_website` only grows the crawl state along `CrawlExt max_depth`. -/
theorem explore_website_ext (web : String → Option (List String)) (netloc : String → String)
    (max_depth : Nat) (url : String) (depth : Nat) (st : CrawlSt) :
    CrawlExt max_depth st (explore_website web netloc max_depth url depth st) := by
  unfold explore_website
  rcases le_or_lt depth max_depth with h | h
  · exact exploreGo_ext web netloc max_depth _ url depth st (by omega)
  · have h0 : max_depth - depth = 0 := by omega
    rw [h0]
    exact crawlExt_refl max_depth st

/-- C2: a crawl frame entered at `depth >= maxDepth`, or for a URL already
visited, returns its state unchanged (no exploration work); the visited set
never acquires a duplicate within a crawl; and every navigation the crawl
performs happens in a frame of depth `< maxDepth` (child recursion always
descends at `depth + 1`, so the depth guard is respected by every frame). -/
theorem C2_crawl_invariants (web : String → Option (List String)) (netloc : String → String)
    (max_depth : Nat) (url : String) (depth : Nat) (st : CrawlSt) :
    (max_depth ≤ depth → explore_website web netloc max_depth url depth st = st)
    ∧ (url ∈ st.visited → explore_website web netloc max_depth url depth st = st)
    ∧ (st.visited.Nodup → (explore_website web netloc max_depth url depth st).visited.Nodup)
    ∧ (∀ p ∈ (explore_website web netloc max_depth url depth st).navs,
        p ∈ st.navs ∨ (p.2 < max_depth ∧ p.1 ∉ st.visited)) := by
  refine ⟨?_, ?_, ?_, ?_⟩
  · intro h
    unfold explore_website
    have h0 : max_depth - depth = 0 := by omega
    rw [h0]
    rfl
  · intro h
    unfold explore_website
    cases max_depth - depth with
    | zero => rfl
    | succ k => unfold exploreGo; rw [if_pos h]
  · exact (explore_website_ext web netloc max_depth url depth st).2.1
  · exact (explore_website_ext web netloc max_depth url depth st).2.2

/-- Witness for C2 over the concrete three-page site `web0`: a frame at the
depth bound is a no-op, a frame on a visited URL is a no-op, the crawl keeps
the visited set duplicate-free, and the recorded navigations happened below
the depth bound. -/
theorem C2_witness :
    explore_website web0 nl0 2 "https://s/a" 2 {} = {}
    ∧ explore_website web0 nl0 2 "https://s/a" 0 { visited := ["https://s/a"] }
        = { visited := ["https://s/a"] }
    ∧ (explore_website web0 nl0 2 "https://s/a" 0 {}).visited.Nodup
    ∧ (("https://s/b", 1) ∈ ({} : CrawlSt).navs
        ∨ ((("https://s/b", 1) : String × Nat).2 < 2
            ∧ (("https://s/b", 1) : String × Nat).1 ∉ ({} : CrawlSt).visited)) := by
  refine ⟨(C2_crawl_invariants web0 nl0 2 "https://s/a" 2 {}).1 (by omega),
         (C2_crawl_invariants web0 nl0 2 "https://s/a" 0 _).2.1 (by decide),
         (C2_crawl_invariants web0 nl0 2 "https://s/a" 0 {}).2.2.1 (by decide),
         (C2_crawl_invariants web0 nl0 2 "https://s/a" 0 {}).2.2.2 ("https://s/b", 1)
           (by decide)⟩

/-- C7 counterexample: the visited set is *not* scoped to a single crawl
invocation.  Over the concrete site `web0`, a first top-level
`explore_invocation` from `https://s/a` navigates to `a` and `b`; a second,
separate top-level invocation of the same URL starts from the persistent
`explored_urls` and performs no navigation at all — the URL is prevented from
being visited again, contradicting the claim that each crawl invocation
begins with visited state of its own lifetime. -/
theorem C7_counterexample :
    (explore_invocation web0 nl0 2 "https://s/a" {}).2
        = [("https://s/a", 0), ("https://s/b", 1)]
    ∧ (explore_invocation web0 nl0 2 "https://s/a"
        (explore_invocation web0 nl0 2 "https://s/a" {}).1).2 = []
    ∧ (explore_invocation web0 nl0 2 "https://s/a" {}).1.explored
        = ["https://s/a", "https://s/b"] := by
  refine ⟨by decide, by decide, by decide⟩

/-- C7 amended: the crawler's visited set persists in the assistant for its
whole lifetime (`explored_urls` is created once in `__init__` and never
cleared), so a URL visited during one top-level explore call is never
navigated again by any later, separate top-level explore call. -/
theorem C7_visited_persists (web : String → Option (List String)) (netloc : String → String)
    (max_depth : Nat) (url : String) (a : AssistantSt) (u : String)
    (hu : u ∈ a.explored) :
    ∀ dep : Nat, (u, dep) ∉ (explore_invocation web netloc max_depth url a).2 := by
  intro dep hmem
  have hext := explore_website_ext web netloc max_depth url 0
    { visited := a.explored, navs := [] }
  rcases hext.2.2 (u, dep) hmem with h | h
  · exact absurd h (List.not_mem_nil _)
  · exact h.2 hu

/-- Witness for C7 amended: after the first crawl over `web0` visited
`https://s/b`, a later invocation rooted there navigates it at no depth. -/
theorem C7_witness :
    ("https://s/b", 0)
      ∉ (explore_invocation web0 nl0 2 "https://s/b"
          (explore_invocation web0 nl0 2 "https://s/a" {}).1).2
    ∧ ("https://s/b", 1)
      ∉ (explore_invocation web0 nl0 2 "https://s/b"
          (explore_invocation web0 nl0 2 "https://s/a" {}).1).2 :=
  ⟨C7_visited_persists web0 nl0 2 "https://s/b"
      (explore_invocation web0 nl0 2 "https://s/a" {}).1 "https://s/b" (by decide) 0,
   C7_visited_persists web0 nl0 2 "https://s/b"
      (explore_invocation web0 nl0 2 "https://s/a" {}).1 "https://s/b" (by decide) 1⟩

/-- Every loop iteration appends exactly one history record — carrying the
proposed kind and details but *no* result status (the dict literal at
main.py:173-178 has no `status` key). -/
theorem execute_task_step_history (decode : String → Option Proposal)
    (web : String → Option (List String)) (netloc : String → String)
    (s : LoopState) (i : StepInput) :
    (execute_task_step decode web netloc s i).history
      = s.history ++ [{ step := s.step + 1,
                        action := (get_next_action_from_gemini decode i.planner).action,
                        details := (get_next_action_from_gemini decode i.planner).details }] := by
  unfold execute_task_step
  dsimp only
  split_ifs <;> rfl

/-- One loop iteration entered with the budgets intact preserves `LoopInv`. -/
theorem execute_task_step_inv (decode : String → Option Proposal)
    (web : String → Option (List String)) (netloc : String → String)
    (s : LoopState) (i : StepInput)
    (hh : s.halted = false) (hs : s.step < 30) (hinv : LoopInv s) :
    LoopInv (execute_task_step decode web netloc s i) := by
  have hr : s.retries ≤ 3 := by
    rcases hinv.2 with h | h
    · exact h
    · rw [hh] at h; exact absurd h.2 (by simp)
  unfold LoopInv
  unfold execute_task_step
  dsimp only
  split_ifs <;> refine ⟨by dsimp only; omega, ?_⟩ <;> dsimp only
  · exact Or.inl hr
  · exact Or.inl hr
  · exact Or.inl hr
  · exact Or.inr ⟨by omega, rfl⟩
  · exact Or.inl (by omega)
  · exact Or.inl (by omega)
  · exact Or.inl (by omega)
  · exact Or.inl (by omega)
  · exact Or.inl (by omega)

/-- Every state reachable by the loop from an invariant state satisfies the
budget invariant. -/
theorem loop_states_inv (decode : String → Option Proposal)
    (web : String → Option (List String)) (netloc : String → String) :
    ∀ (inputs : List StepInput) (s : LoopState), LoopInv s →
      ∀ x ∈ loop_states decode web netloc inputs s, LoopInv x := by
  intro inputs
  induction inputs with
  | nil =>
    intro s hs x hx
    unfold loop_states at hx
    simp only [List.mem_singleton] at hx
    rwa [hx]
  | cons i rest ih =>
    intro s hs x hx
    unfold loop_states at hx
    by_cases hg : s.halted = true ∨ 30 ≤ s.step
    · rw [if_pos hg] at hx
      simp only [List.mem_singleton] at hx
      rwa [hx]
    · rw [if_neg hg] at hx
      push_neg at hg
      have hh : s.halted = false := by
        cases hb : s.halted
        · rfl
        · exact absurd hb hg.1
      rcases List.mem_cons.mp hx with rfl | hx'
      · exact hs
      · exact ih _ (execute_task_step_inv decode web netloc s i hh (by omega) hs) x hx'

/-- C3: in every execution of the control loop the step counter never exceeds
`max_steps = 30`, and the retry counter exceeds `max_retry_attempts = 3` only
in the state that halts the task; a RETRY proposal increments the retry
counter without executing any action (the executor log is untouched) and
halts the loop once the counter passes 3; every proposal kind other than
TASK_COMPLETE, MANUAL_CAPTCHA, EXPLORE_WEBSITE and RETRY resets the retry
counter to 0. -/
theorem C3_loop_budgets (decode : String → Option Proposal)
    (web : String → Option (List String)) (netloc : String → String)
    (inputs : List StepInput) :
    (∀ s ∈ loop_states decode web netloc inputs {},
      s.step ≤ 30 ∧ (s.retries ≤ 3 ∨ (s.retries = 4 ∧ s.halted = true)))
    ∧ (∀ (s : LoopState) (i : StepInput),
        (get_next_action_from_gemini decode i.planner).action = "RETRY" →
        (execute_task_step decode web netloc s i).retries = s.retries + 1
        ∧ (execute_task_step decode web netloc s i).execLog = s.execLog
        ∧ (3 < s.retries + 1 → (execute_task_step decode web netloc s i).halted = true))
    ∧ (∀ (s : LoopState) (i : StepInput),
        (get_next_action_from_gemini decode i.planner).action ∉
          (["TASK_COMPLETE", "MANUAL_CAPTCHA", "EXPLORE_WEBSITE", "RETRY"] : List String) →
        (execute_task_step decode web netloc s i).retries = 0) := by
  refine ⟨?_, ?_, ?_⟩
  · exact loop_states_inv decode web netloc inputs {} ⟨by simp, Or.inl (by simp)⟩
  · intro s i h
    unfold execute_task_step
    dsimp only
    rw [h]
    simp only [String.reduceEq, reduceIte]
    split_ifs with h4
    · exact ⟨rfl, rfl, fun _ => rfl⟩
    · exact ⟨rfl, rfl, fun hc => absurd hc h4⟩
  · intro s i h
    simp only [List.mem_cons, List.mem_singleton, not_or] at h
    obtain ⟨h1, h2, h3, h4, -⟩ := h
    unfold execute_task_step
    dsimp only
    simp only [h1, h2, h3, h4, if_false]
    split_ifs <;> rfl

/-- Witness for C3: the empty run's initial state satisfies the budgets; a
concrete RETRY step increments the counter without touching the executor log;
and a concrete CLICK step resets the counter. -/
theorem C3_witness :
    (({} : LoopState).step ≤ 30
      ∧ (({} : LoopState).retries ≤ 3
          ∨ (({} : LoopState).retries = 4 ∧ ({} : LoopState).halted = true)))
    ∧ ((execute_task_step decRetry web0 nl0 {} inp0).retries = ({} : LoopState).retries + 1
        ∧ (execute_task_step decRetry web0 nl0 {} inp0).execLog = ({} : LoopState).execLog)
    ∧ (execute_task_step decClick web0 nl0 {} inp0).retries = 0 := by
  refine ⟨(C3_loop_budgets decRetry web0 nl0 []).1 {} (by simp [loop_states]),
         ⟨((C3_loop_budgets decRetry web0 nl0 []).2.1 {} inp0 rfl).1,
          ((C3_loop_budgets decRetry web0 nl0 []).2.1 {} inp0 rfl).2.1⟩,
         (C3_loop_budgets decClick web0 nl0 []).2.2 {} inp0 (by decide)⟩

/-- A proposal whose kind is `WAIT` dispatches to `wait_for` with the
proposed seconds (default 3). -/
theorem execute_action_wait (d : Driver) (p : Proposal) (hp : p.action = "WAIT") :
    execute_action p d = wait_for d (p.details.seconds.getD 3) := by
  unfold execute_action execute_dispatch
  rw [hp]
  have hup : pyUpper "WAIT" = "WAIT" := by decide
  rw [hup]
  simp only [String.reduceEq, reduceIte]

/-- A loop iteration whose proposal is a `WAIT`, over a driver whose native
wait succeeds, appends its history record and continues un-halted. -/
theorem wait_step_continues (decode : String → Option Proposal)
    (web : String → Option (List String)) (netloc : String → String)
    (s : LoopState) (i : StepInput)
    (hh : s.halted = false)
    (ha : (get_next_action_from_gemini decode i.planner).action = "WAIT")
    (hw : ∀ ms, i.driver.waitTimeout ms = .ok ()) :
    (execute_task_step decode web netloc s i).halted = false
    ∧ (execute_task_step decode web netloc s i).step = s.step + 1
    ∧ (execute_task_step decode web netloc s i).history
        = s.history ++ [{ step := s.step + 1, action := "WAIT",
                          details := (get_next_action_from_gemini decode i.planner).details }] := by
  unfold execute_task_step
  dsimp only
  rw [ha]
  simp only [String.reduceEq, reduceIte]
  rw [execute_action_wait i.driver _ ha]
  unfold wait_for
  rw [hw]
  simp only [mkSuccess, String.reduceEq, reduceIte]
  exact ⟨hh, rfl, rfl⟩

/-- C4: a planner transport failure synthesizes the `WAIT(10s)` proposal and a
planner decode failure the `WAIT(5s)` proposal; in either case the loop
records the step and continues — the iteration appends a `WAIT` history
record, advances the step counter and does not halt (the wait executes
successfully over a driver whose native wait succeeds). -/
theorem C4_planner_failure_degrades (decode : String → Option Proposal)
    (web : String → Option (List String)) (netloc : String → String) :
    (get_next_action_from_gemini decode none = transport_failure_wait
      ∧ transport_failure_wait.action = "WAIT"
      ∧ transport_failure_wait.details.seconds = some 10)
    ∧ (∀ raw, decode (stripFences raw.trim) = none →
        get_next_action_from_gemini decode (some raw) = decode_failure_wait
        ∧ decode_failure_wait.action = "WAIT"
        ∧ decode_failure_wait.details.seconds = some 5)
    ∧ (∀ (s : LoopState) (i : StepInput),
        s.halted = false →
        (i.planner = none ∨ ∃ raw, i.planner = some raw ∧ decode (stripFences raw.trim) = none) →
        (∀ ms, i.driver.waitTimeout ms = .ok ()) →
        (execute_task_step decode web netloc s i).halted = false
        ∧ (execute_task_step decode web netloc s i).step = s.step + 1
        ∧ (execute_task_step decode web netloc s i).history
            = s.history ++ [{ step := s.step + 1, action := "WAIT",
                              details := (get_next_action_from_gemini decode i.planner).details }]) := by
  refine ⟨⟨rfl, rfl, rfl⟩, ?_, ?_⟩
  · intro raw h
    refine ⟨?_, rfl, rfl⟩
    unfold get_next_action_from_gemini
    dsimp only
    rw [h]
  · intro s i hh hfail hw
    have ha : (get_next_action_from_gemini decode i.planner).action = "WAIT" := by
      rcases hfail with h | ⟨raw, hp, hd⟩
      · rw [h]; rfl
      · rw [hp]
        unfold get_next_action_from_gemini
        dsimp only
        rw [hd]
        rfl
    exact wait_step_continues decode web netloc s i hh ha hw

/-- Witness for C4: the always-failing decode over the benign driver — the
transport-failure and decode-failure proposals, and one concrete degraded
step that records `WAIT` and continues. -/
theorem C4_witness :
    (get_next_action_from_gemini decNone none = transport_failure_wait
      ∧ transport_failure_wait.action = "WAIT"
      ∧ transport_failure_wait.details.seconds = some 10)
    ∧ (get_next_action_from_gemini decNone (some "garbage") = decode_failure_wait
      ∧ decode_failure_wait.action = "WAIT"
      ∧ decode_failure_wait.details.seconds = some 5)
    ∧ ((execute_task_step decNone web0 nl0 {} inp0).halted = false
      ∧ (execute_task_step decNone web0 nl0 {} inp0).step = ({} : LoopState).step + 1
      ∧ (execute_task_step decNone web0 nl0 {} inp0).history
          = ({} : LoopState).history
            ++ [{ step := ({} : LoopState).step + 1, action := "WAIT",
                  details := (get_next_action_from_gemini decNone inp0.planner).details }]) := by
  refine ⟨(C4_planner_failure_degrades decNone web0 nl0).1,
         (C4_planner_failure_degrades decNone web0 nl0).2.1 "garbage" rfl,
         (C4_planner_failure_degrades decNone web0 nl0).2.2 {} inp0 rfl
           (Or.inr ⟨"x", rfl, rfl⟩) (fun _ => rfl)⟩

/-- History records appended by the loop never carry a status, starting from
any history whose records carry none. -/
theorem execute_task_history_status (decode : String → Option Proposal)
    (web : String → Option (List String)) (netloc : String → String) :
    ∀ (inputs : List StepInput) (s : LoopState),
      (∀ r ∈ s.history, r.status = none) →
      ∀ r ∈ (execute_task decode web netloc inputs s).history, r.status = none := by
  intro inputs
  induction inputs with
  | nil =>
    intro s hs
    unfold execute_task
    exact hs
  | cons i rest ih =>
    intro s hs
    unfold execute_task
    split
    · exact hs
    · apply ih
      rw [execute_task_step_history]
      intro r hr
      rcases List.mem_append.mp hr with h | h
      · exact hs r h
      · simp only [List.mem_singleton] at h
        subst h
        rfl

/-- C1 (code bug): `generate_task_summary` counts history records whose
`status` is `SUCCESS`/`ERROR`, but `execute_task` appends history records
without any `status` key (action results go only to `internal_monologue`), so
the reported successful and errored counts are always 0 regardless of what the
executor did; in the concrete run `inpBug` — a CLICK that errors followed by a
recovery action that errors, terminating the task — two executor errors are
recorded in the run yet the summary reports zero errors. -/
theorem C1_summary_counts_bug (decode : String → Option Proposal)
    (web : String → Option (List String)) (netloc : String → String)
    (inputs : List StepInput) :
    (generate_task_summary (execute_task decode web netloc inputs {}).history).error_steps = 0
    ∧ (generate_task_summary (execute_task decode web netloc inputs {}).history).successful_steps = 0
    ∧ generate_task_summary (execute_task decBug web0 nl0 [inpBug] {}).history
        = { successful_steps := 0, error_steps := 0,
            manual_captcha_steps := 0, exploration_steps := 0 }
    ∧ exec_error_count (execute_task decBug web0 nl0 [inpBug] {}) = 2
    ∧ (execute_task decBug web0 nl0 [inpBug] {}).halted = true := by
  have hnone := execute_task_history_status decode web netloc inputs {} (by simp)
  refine ⟨?_, ?_, by decide, by decide, by decide⟩
  · unfold generate_task_summary
    simp only
    rw [List.countP_eq_zero]
    intro r hr
    simp [hnone r hr]
  · unfold generate_task_summary
    simp only
    rw [List.countP_eq_zero]
    intro r hr
    simp [hnone r hr]

end WebSurfer
